import Mathlib

/-!
Formal model of `scripts/add_cloudkit_to_xcode.py`.

The script edits an Xcode `project.pbxproj` manifest as plain text.  Buffers are
modelled as `List Char`.  Python's `re.sub` (with its default `count = 0`,
i.e. every non-overlapping leftmost match is replaced) is modelled by `scanSub`:
a left-to-right scan that, at each position, asks a matcher function for a match;
on success it emits the replacement text and resumes after the matched span, on
failure it keeps the character and moves one position right.  Each of the four
regex patterns of the script is deterministic (literals, a fixed-width hex token,
maximal whitespace runs forced by following non-whitespace literals, and
character-class complements whose extent is forced by the first excluded
character), so each is modelled by an explicit matcher function returning the
matched span and the rest of the buffer.  The fuel argument of `scanAux` is a
termination device only: it is initialised to the buffer length and every step
consumes at least one character, since all patterns are non-empty.
-/

set_option maxRecDepth 100000
set_option maxHeartbeats 4000000

/-- Dictionary with the `plugin` and `service` identifier entries, as passed to
the editors (`file_ids` / `build_ids` in the script). -/
structure Ids where
  plugin : List Char
  service : List Char
deriving DecidableEq

/-- Anchor of `add_pbx_file_references`: the literal regex
`/\* End PBXFileReference section \*/`. -/
def pbxFileRefSectionEnd : List Char := "/* End PBXFileReference section */".data

/-- Anchor of `add_pbx_build_files`: the literal regex
`/\* End PBXBuildFile section \*/`. -/
def pbxBuildFileSectionEnd : List Char := "/* End PBXBuildFile section */".data

/-- First capture group of the primary Runner-group pattern: the
bridging-header sentinel child line. -/
def runnerGroupAnchor1 : List Char :=
  "74858FAD1ED2DC5600515810 /* Runner-Bridging-Header.h */,\n".data

/-- Second capture group of the primary Runner-group pattern: the closing
delimiter of the children list. -/
def runnerGroupClose : List Char := "\t\t\t);".data

/-- PBXFileReference entry for CloudKitPlugin.swift (`plugin_entry` of
`add_pbx_file_references`), split exactly as the f-string interpolates. -/
def cloudKitPluginFileRef (file_ids : Ids) : List Char :=
  "\t\t".data ++ file_ids.plugin ++
    " /* CloudKitPlugin.swift */ = \x7bisa = PBXFileReference; lastKnownFileType = sourcecode.swift; path = CloudKitPlugin.swift; sourceTree = \"<group>\"; \x7d;\n".data

/-- PBXFileReference entry for CloudKitService.swift (`service_entry` of
`add_pbx_file_references`). -/
def cloudKitServiceFileRef (file_ids : Ids) : List Char :=
  "\t\t".data ++ file_ids.service ++
    " /* CloudKitService.swift */ = \x7bisa = PBXFileReference; lastKnownFileType = sourcecode.swift; path = CloudKitService.swift; sourceTree = \"<group>\"; \x7d;\n".data

/-- PBXBuildFile entry for CloudKitPlugin.swift (`plugin_entry` of
`add_pbx_build_files`); its `fileRef` field interpolates `file_ids.plugin`. -/
def cloudKitPluginBuildFile (build_ids file_ids : Ids) : List Char :=
  "\t\t".data ++ build_ids.plugin ++
    " /* CloudKitPlugin.swift in Sources */ = \x7bisa = PBXBuildFile; fileRef = ".data ++
    file_ids.plugin ++ " /* CloudKitPlugin.swift */; \x7d;\n".data

/-- PBXBuildFile entry for CloudKitService.swift (`service_entry` of
`add_pbx_build_files`). -/
def cloudKitServiceBuildFile (build_ids file_ids : Ids) : List Char :=
  "\t\t".data ++ build_ids.service ++
    " /* CloudKitService.swift in Sources */ = \x7bisa = PBXBuildFile; fileRef = ".data ++
    file_ids.service ++ " /* CloudKitService.swift */; \x7d;\n".data

/-- Runner-group child line for CloudKitPlugin.swift (`plugin_ref` of
`add_to_runner_group`). -/
def cloudKitPluginGroupChild (file_ids : Ids) : List Char :=
  "\t\t\t\t".data ++ file_ids.plugin ++ " /* CloudKitPlugin.swift */,\n".data

/-- Runner-group child line for CloudKitService.swift (`service_ref` of
`add_to_runner_group`). -/
def cloudKitServiceGroupChild (file_ids : Ids) : List Char :=
  "\t\t\t\t".data ++ file_ids.service ++ " /* CloudKitService.swift */,\n".data

/-- Sources-phase files entry for CloudKitPlugin.swift (`plugin_ref` of
`add_to_sources_build_phase`). -/
def cloudKitPluginSourcesEntry (build_ids : Ids) : List Char :=
  "\t\t\t\t".data ++ build_ids.plugin ++ " /* CloudKitPlugin.swift in Sources */,\n".data

/-- Sources-phase files entry for CloudKitService.swift (`service_ref` of
`add_to_sources_build_phase`). -/
def cloudKitServiceSourcesEntry (build_ids : Ids) : List Char :=
  "\t\t\t\t".data ++ build_ids.service ++ " /* CloudKitService.swift in Sources */,\n".data

/-- Two file-reference entries, plugin first, as concatenated into the
replacement string of `add_pbx_file_references`. -/
def frIns (file_ids : Ids) : List Char :=
  cloudKitPluginFileRef file_ids ++ cloudKitServiceFileRef file_ids

/-- Two build-file entries, plugin first (`add_pbx_build_files`). -/
def bfIns (build_ids file_ids : Ids) : List Char :=
  cloudKitPluginBuildFile build_ids file_ids ++ cloudKitServiceBuildFile build_ids file_ids

/-- Two group children, plugin first (`add_to_runner_group`). -/
def rgIns (file_ids : Ids) : List Char :=
  cloudKitPluginGroupChild file_ids ++ cloudKitServiceGroupChild file_ids

/-- Two phase entries, plugin first (`add_to_sources_build_phase`). -/
def spIns (build_ids : Ids) : List Char :=
  cloudKitPluginSourcesEntry build_ids ++ cloudKitServiceSourcesEntry build_ids

/-- Matcher for a literal pattern `pat`: on a match the editor replaces the
matched span by `rep` (all replacement strings of the script re-emit the
matched anchor inside `rep`, so plain `re.sub` backreference handling is
covered). -/
def litRepl (pat rep s : List Char) : Option (List Char × List Char) :=
  if pat.isPrefixOf s then some (rep, s.drop pat.length) else none

/-- Helper used by the structured matchers: consume a literal, returning the
rest of the buffer. -/
def dropLit (p s : List Char) : Option (List Char) :=
  if p.isPrefixOf s then some (s.drop p.length) else none

/-- Helper: split at the first occurrence of character `c`; the second
component starts with `c`.  Models the forced extent of `[^c]` runs. -/
def breakAt (c : Char) : List Char → Option (List Char × List Char)
  | [] => none
  | x :: xs =>
    if x = c then some ([], x :: xs)
    else
      match breakAt c xs with
      | none => none
      | some (w, r) => some (x :: w, r)

/-- Whitespace class of the regex `\s` (ASCII range, as found in pbxproj files). -/
def pyWhite (c : Char) : Bool :=
  c = ' ' || c = '\t' || c = '\n' || c = '\r' || c = '\x0b' || c = '\x0c'

/-- Character class `[A-F0-9]` of the fallback Runner-group pattern. -/
def isUpHexDigit (c : Char) : Bool :=
  c.isDigit || ('A' ≤ c && c ≤ 'F')

/-- Leading tabs of the fallback Runner-group pattern. -/
def altTabs4 : List Char := "\t\t\t\t".data

/-- Literal ` /* ` between the hex token and the label in the fallback pattern. -/
def altOpen : List Char := " /* ".data

/-- Literal `*/,` plus newline closing the child line in the fallback pattern. -/
def altStarClose : List Char := "*/,\n".data

/-- Second capture group of the fallback Runner-group pattern: closing
delimiter plus the `path`/`sourceTree` trailer lines of the Runner group. -/
def altTail : List Char :=
  "\t\t\t);\n\t\t\tpath = Runner;\n\t\t\tsourceTree = \"<group>\";".data

/-- Matcher for the fallback Runner-group pattern
`(\t\t\t\t[A-F0-9]\x7b24\x7d /\* [^*]+ \*/,\n)(\t\t\t\);\n\t\t\tpath = Runner;\n\t\t\tsourceTree = "<group>";)`.
Returns (first capture group, rest after the second group).  The extent of the
greedy `[^*]+` is forced: it cannot cross a star, and the literal that follows
it starts with a space and a star, so the run ends one character before the
first star, which must be a space. -/
def altMatch (s : List Char) : Option (List Char × List Char) :=
  match dropLit altTabs4 s with
  | none => none
  | some s1 =>
    if (s1.take 24).length = 24 ∧ (s1.take 24).all isUpHexDigit = true then
      match dropLit altOpen (s1.drop 24) with
      | none => none
      | some s2 =>
        match breakAt '*' s2 with
        | none => none
        | some (w, s3) =>
          if 2 ≤ w.length ∧ w.getLast? = some ' ' then
            match dropLit altStarClose s3 with
            | none => none
            | some s4 =>
              match dropLit altTail s4 with
              | none => none
              | some s5 =>
                some (altTabs4 ++ (s1.take 24 ++ (altOpen ++ (w ++ altStarClose))), s5)
          else none
    else none

/-- Head literal of the Sources-phase pattern (the well-known phase id). -/
def srcPhaseHead : List Char := "97C146EA1CF9000F007C117D /* Sources */ = \x7b".data

/-- Literal `isa = PBXSourcesBuildPhase;` of the Sources-phase pattern. -/
def srcPhaseIsa : List Char := "isa = PBXSourcesBuildPhase;".data

/-- Literal `buildActionMask = 2147483647;` of the Sources-phase pattern. -/
def srcPhaseMask : List Char := "buildActionMask = 2147483647;".data

/-- Literal `files = (` of the Sources-phase pattern. -/
def srcPhaseFiles : List Char := "files = (".data

/-- Second capture group of the Sources-phase pattern: the closing `\t\t);`. -/
def srcPhaseClose : List Char := "\t\t);".data

/-- Matcher for the Sources-phase pattern
`(97C146EA... /\* Sources \*/ = \{\s*isa...\s*buildActionMask...\s*files = \(\s*[^)]*?)(\t\t\);)`
(with DOTALL, which is irrelevant: the pattern contains no dot).  Each `\s*`
is a maximal whitespace run because the literal after it starts with a
non-whitespace character; the lazy `[^)]*?` together with the closing literal
forces the match to end at the first right parenthesis after `files = (`,
which must be preceded by two tabs and followed by a semicolon. -/
def srcMatch (s : List Char) : Option (List Char × List Char) :=
  match dropLit srcPhaseHead s with
  | none => none
  | some s1 =>
    match dropLit srcPhaseIsa (s1.dropWhile pyWhite) with
    | none => none
    | some s2 =>
      match dropLit srcPhaseMask (s2.dropWhile pyWhite) with
      | none => none
      | some s3 =>
        match dropLit srcPhaseFiles (s3.dropWhile pyWhite) with
        | none => none
        | some s4 =>
          match breakAt ')' s4 with
          | none => none
          | some (w, s5) =>
            match s5 with
            | [] => none
            | [_] => none
            | rp :: sc :: r =>
              if rp = ')' ∧ sc = ';' ∧ 2 ≤ w.length ∧ w.drop (w.length - 2) = ['\t', '\t'] then
                some (srcPhaseHead ++ (s1.takeWhile pyWhite ++ (srcPhaseIsa ++
                  (s2.takeWhile pyWhite ++ (srcPhaseMask ++ (s3.takeWhile pyWhite ++
                  (srcPhaseFiles ++ w.take (w.length - 2))))))), r)
              else none

/-- Scanning engine for `re.sub` with `count = 0`: try the matcher at every
position, left to right; on success emit the replacement and resume after the
matched span (first component of the matcher result is the replacement, second
is the rest of the buffer).  `fuel` only bounds the recursion; it is
initialised to the buffer length, which is exact since every pattern of the
script consumes at least one character. -/
def scanAux (f : List Char → Option (List Char × List Char)) : Nat → List Char → List Char
  | _, [] => []
  | 0, s => s
  | fuel + 1, c :: cs =>
    match f (c :: cs) with
    | none => c :: scanAux f fuel cs
    | some (rep, r) => rep ++ scanAux f fuel r

/-- Tail-recursive list length (an accumulator keeps kernel evaluation of the
fuel iterative on long buffers). -/
def lenAcc (n : Nat) : List Char → Nat
  | [] => n
  | _ :: cs => lenAcc (n + 1) cs

/-- Model of `re.sub(pattern, replacement, s)` for the deterministic patterns
of the script, given their matcher `f`. -/
def scanSub (f : List Char → Option (List Char × List Char)) (s : List Char) : List Char :=
  scanAux f (lenAcc 0 s) s

/-- Tail-recursive buffer equality (the `result == content` comparison of
`add_to_runner_group`; an accumulator-free loop keeps kernel evaluation
iterative on long buffers). -/
def eqList : List Char → List Char → Bool
  | [], [] => true
  | a :: as, b :: bs => if a = b then eqList as bs else false
  | _, _ => false

/-- Matcher of `add_pbx_file_references`: anchor plus its replacement
(two entries, then the anchor re-emitted by the backreference). -/
def frMatch (file_ids : Ids) : List Char → Option (List Char × List Char) :=
  litRepl pbxFileRefSectionEnd (frIns file_ids ++ pbxFileRefSectionEnd)

/-- Matcher of `add_pbx_build_files`. -/
def bfMatch (build_ids file_ids : Ids) : List Char → Option (List Char × List Char) :=
  litRepl pbxBuildFileSectionEnd (bfIns build_ids file_ids ++ pbxBuildFileSectionEnd)

/-- Matcher of the primary pattern of `add_to_runner_group`: the two capture
groups are literals, and the replacer re-emits group 1, the two children, then
group 2. -/
def rgMatch (file_ids : Ids) : List Char → Option (List Char × List Char) :=
  litRepl (runnerGroupAnchor1 ++ runnerGroupClose)
    (runnerGroupAnchor1 ++ (rgIns file_ids ++ runnerGroupClose))

/-- Matcher of the fallback pattern of `add_to_runner_group` with its
replacement (group 1, the two children, group 2). -/
def altRepl (file_ids : Ids) (s : List Char) : Option (List Char × List Char) :=
  (altMatch s).map fun p => (p.1 ++ (rgIns file_ids ++ altTail), p.2)

/-- Matcher of `add_to_sources_build_phase` with its replacement
(group 1, the two entries, group 2). -/
def spMatch (build_ids : Ids) (s : List Char) : Option (List Char × List Char) :=
  (srcMatch s).map fun p => (p.1 ++ (spIns build_ids ++ srcPhaseClose), p.2)

/-- Model of `add_pbx_file_references(content, file_ids)`. -/
def add_pbx_file_references (content : List Char) (file_ids : Ids) : List Char :=
  scanSub (frMatch file_ids) content

/-- Model of `add_pbx_build_files(content, build_ids, file_ids)`. -/
def add_pbx_build_files (content : List Char) (build_ids file_ids : Ids) : List Char :=
  scanSub (bfMatch build_ids file_ids) content

/-- Model of `add_to_runner_group(content, file_ids)`: primary substitution;
if it changed nothing, the fallback substitution is applied instead. -/
def add_to_runner_group (content : List Char) (file_ids : Ids) : List Char :=
  let result := scanSub (rgMatch file_ids) content
  if eqList result content then scanSub (altRepl file_ids) content else result

/-- Model of `add_to_sources_build_phase(content, build_ids)`. -/
def add_to_sources_build_phase (content : List Char) (build_ids : Ids) : List Char :=
  scanSub (spMatch build_ids) content

/-- In-memory part of `modify_pbxproj`: the four editors in source order
(build files, file references, Runner group, Sources phase). -/
def modify_pbxproj_transform (file_ids build_ids : Ids) (content : List Char) : List Char :=
  add_to_sources_build_phase
    (add_to_runner_group
      (add_pbx_file_references
        (add_pbx_build_files content build_ids file_ids) file_ids) file_ids) build_ids

/-- File-system state for `modify_pbxproj`: the manifest file content
(`none` models a missing file, i.e. `read_pbxproj` raising
`FileNotFoundError`) and the log of every write performed. -/
structure PbxFS where
  file : Option (List Char)
  writes : List (List Char)
deriving DecidableEq

/-- Model of `read_pbxproj`: returns the content, or `none` when the file is
missing (the `FileNotFoundError` branch). -/
def read_pbxproj (fs : PbxFS) : Option (List Char) := fs.file

/-- Model of `write_pbxproj`: overwrites the file and logs the write. -/
def write_pbxproj (fs : PbxFS) (content : List Char) : PbxFS :=
  { file := some content, writes := fs.writes ++ [content] }

/-- Model of `modify_pbxproj`: read; on failure the exception propagates (the
second component is `none`) and the file system is untouched; otherwise the
four in-memory editors run in source order and a single write persists the
result, after which the function returns `True`.  The identifier dictionaries
are parameters standing for the four `generate_xcode_id()` draws. -/
def modify_pbxproj (file_ids build_ids : Ids) (fs : PbxFS) : PbxFS × Option Bool :=
  match read_pbxproj fs with
  | none => (fs, none)
  | some content =>
    let c1 := add_pbx_build_files content build_ids file_ids
    let c2 := add_pbx_file_references c1 file_ids
    let c3 := add_to_runner_group c2 file_ids
    let c4 := add_to_sources_build_phase c3 build_ids
    (write_pbxproj fs c4, some true)

/-- Lowercase hexadecimal digits, as produced by `secrets.token_hex`. -/
def hexLowerDigits : List Char := "0123456789abcdef".data

/-- Lowercase hexadecimal digit for a nibble. -/
def hexLower (n : Nat) : Char := hexLowerDigits.getD n '0'

/-- Model of `secrets.token_hex`: two lowercase hex digits per random byte.
The byte list stands for the underlying random source. -/
def token_hex : List Nat → List Char
  | [] => []
  | b :: bs => hexLower (b / 16 % 16) :: hexLower (b % 16) :: token_hex bs

/-- Model of `generate_xcode_id`: `secrets.token_hex(12).upper()`, as a pure
function of the 12 random bytes drawn for one call.  No state is carried
between calls and the buffer is not consulted. -/
def generate_xcode_id (bytes : List Nat) : List Char :=
  (token_hex bytes).map Char.toUpper

/-- Count of the positions of `s` at which `pat` occurs (tail recursive; for
the marker strings used below, which cannot overlap themselves, this is the
plain occurrence count). -/
def countOccsAux (pat : List Char) (acc : Nat) : List Char → Nat
  | [] => acc
  | c :: cs =>
    if pat.isPrefixOf (c :: cs) then countOccsAux pat (acc + 1) cs
    else countOccsAux pat acc cs

/-- Count of the occurrences of `pat` in `s`. -/
def countOccs (pat s : List Char) : Nat := countOccsAux pat 0 s

/-- Split a buffer into lines at newline characters. -/
def linesOf : List Char → List (List Char)
  | [] => [[]]
  | c :: cs =>
    if c = '\n' then [] :: linesOf cs
    else
      match linesOf cs with
      | [] => [[c]]
      | l :: ls => (c :: l) :: ls

/-- Number of lines of `s` containing `pat` (the grep line count of the spec's
end-to-end scenario). -/
def grepCount (pat s : List Char) : Nat :=
  (linesOf s).countP fun l => decide (pat <:+: l)

/-- No position of `s` matches `f` (positions beyond the end hold trivially
since every matcher rejects the empty buffer, so bounding the index keeps the
predicate decidable). -/
def noHit (f : List Char → Option (List Char × List Char)) (s : List Char) : Prop :=
  ∀ i, i ≤ s.length → f (s.drop i) = none

/-- No position of `s` before index `k` matches `f`. -/
def noHitIn (f : List Char → Option (List Char × List Char)) (k : Nat) (s : List Char) : Prop :=
  ∀ i, i < k → f (s.drop i) = none

/-- Executable check for `noHit`: walk the suffixes of `s` once. -/
def noHitB (f : List Char → Option (List Char × List Char)) : List Char → Bool
  | [] => decide (f [] = none)
  | c :: cs => decide (f (c :: cs) = none) && noHitB f cs

/-- Executable check for `noHitIn`: test the first `k` suffixes of `s`. -/
def noHitUptoB (f : List Char → Option (List Char × List Char)) : Nat → List Char → Bool
  | 0, _ => true
  | _ + 1, [] => true
  | k + 1, c :: cs => decide (f (c :: cs) = none) && noHitUptoB f k cs

instance (f : List Char → Option (List Char × List Char)) (s : List Char) :
    Decidable (noHit f s) := by
  unfold noHit; infer_instance

instance (f : List Char → Option (List Char × List Char)) (k : Nat) (s : List Char) :
    Decidable (noHitIn f k s) := by
  unfold noHitIn; infer_instance

/-- Manifest with the four anchors in their standard order, with arbitrary
glue text `p0..p3` around them and the Sources-phase region `t`. -/
def manifestShape (p0 p1 p2 p3 t : List Char) : List Char :=
  p0 ++ (pbxBuildFileSectionEnd ++ (p1 ++ (pbxFileRefSectionEnd ++
    (p2 ++ (runnerGroupAnchor1 ++ (runnerGroupClose ++ (p3 ++ t)))))))

/-- Shape after `add_pbx_build_files`: the two build-file entries sit directly
before the build-file section end anchor. -/
def stage1Shape (build_ids file_ids : Ids) (p0 p1 p2 p3 t : List Char) : List Char :=
  p0 ++ (bfIns build_ids file_ids ++ (pbxBuildFileSectionEnd ++ (p1 ++
    (pbxFileRefSectionEnd ++ (p2 ++ (runnerGroupAnchor1 ++
      (runnerGroupClose ++ (p3 ++ t))))))))

/-- Shape after `add_pbx_file_references`: additionally the two file-reference
entries sit directly before the file-reference section end anchor. -/
def stage2Shape (build_ids file_ids : Ids) (p0 p1 p2 p3 t : List Char) : List Char :=
  p0 ++ (bfIns build_ids file_ids ++ (pbxBuildFileSectionEnd ++ (p1 ++
    (frIns file_ids ++ (pbxFileRefSectionEnd ++ (p2 ++ (runnerGroupAnchor1 ++
      (runnerGroupClose ++ (p3 ++ t)))))))))

/-- Shape after `add_to_runner_group` via the primary pattern: the two group
children sit between the sentinel line and the closing delimiter. -/
def stage3Shape (build_ids file_ids : Ids) (p0 p1 p2 p3 t : List Char) : List Char :=
  p0 ++ (bfIns build_ids file_ids ++ (pbxBuildFileSectionEnd ++ (p1 ++
    (frIns file_ids ++ (pbxFileRefSectionEnd ++ (p2 ++ (runnerGroupAnchor1 ++
      (rgIns file_ids ++ (runnerGroupClose ++ (p3 ++ t))))))))))

/-- Final pipeline shape: additionally the two phase entries sit between the
matched Sources block head `m1` and its closing `\t\t);`, with `r` the text
after the closing. -/
def finalShape (build_ids file_ids : Ids) (p0 p1 p2 p3 m1 r : List Char) : List Char :=
  p0 ++ (bfIns build_ids file_ids ++ (pbxBuildFileSectionEnd ++ (p1 ++
    (frIns file_ids ++ (pbxFileRefSectionEnd ++ (p2 ++ (runnerGroupAnchor1 ++
      (rgIns file_ids ++ (runnerGroupClose ++ (p3 ++ (m1 ++
        (spIns build_ids ++ (srcPhaseClose ++ r)))))))))))))

/-- Concrete file-reference identifiers (24 uppercase hex characters each). -/
def exFileIds : Ids :=
  ⟨"1111111111111111111111AA".data, "2222222222222222222222BB".data⟩

/-- Concrete build-file identifiers. -/
def exBuildIds : Ids :=
  ⟨"3333333333333333333333CC".data, "4444444444444444444444DD".data⟩

/-- Concrete file-reference identifiers for a second pipeline run. -/
def exFileIds2 : Ids :=
  ⟨"5555555555555555555555EE".data, "6666666666666666666666FF".data⟩

/-- Concrete build-file identifiers for a second pipeline run. -/
def exBuildIds2 : Ids :=
  ⟨"7777777777777777777777AB".data, "8888888888888888888888CD".data⟩

/-- Glue before the build-file section end anchor. -/
def mp0 : List Char := "/* Begin PBXBuildFile section */\n".data

/-- Glue between the build-file and file-reference anchors. -/
def mp1 : List Char := "\n/* Begin PBXFileReference section */\n".data

/-- Glue up to the Runner group sentinel line (group header and children
opening). -/
def mp2 : List Char :=
  "\n/* Begin PBXGroup section */\n\t\t97C146F01CF9000F007C117D /* Runner */ = \x7b\n\t\t\tisa = PBXGroup;\n\t\t\tchildren = (\n\t\t\t\t".data

/-- Glue after the group closing delimiter: the Runner group trailer
(`path`/`sourceTree`), group section end, and the Sources phase opening. -/
def mp3 : List Char :=
  "\n\t\t\tpath = Runner;\n\t\t\tsourceTree = \"<group>\";\n\t\t\x7d;\n/* End PBXGroup section */\n/* Begin PBXSourcesBuildPhase section */\n\t\t".data

/-- Sources-phase region: the phase block with an empty files list, followed by
the closing trailer of the manifest. -/
def mSrcT : List Char :=
  "97C146EA1CF9000F007C117D /* Sources */ = \x7b\n\t\t\tisa = PBXSourcesBuildPhase;\n\t\t\tbuildActionMask = 2147483647;\n\t\t\tfiles = (\n\t\t\t);\n\t\t\x7d;\n/* End PBXSourcesBuildPhase section */\n".data

/-- First capture group of the Sources-phase match inside `mSrcT`. -/
def mm1 : List Char :=
  "97C146EA1CF9000F007C117D /* Sources */ = \x7b\n\t\t\tisa = PBXSourcesBuildPhase;\n\t\t\tbuildActionMask = 2147483647;\n\t\t\tfiles = (\n\t".data

/-- Rest of `mSrcT` after the matched Sources block. -/
def mr : List Char := "\n\t\t\x7d;\n/* End PBXSourcesBuildPhase section */\n".data

/-- Minimal synthetic manifest: exactly the four anchors, no CloudKit entries. -/
def minimalManifest : List Char := manifestShape mp0 mp1 mp2 mp3 mSrcT

/-- Manifest in which the build-file section end anchor occurs twice (and the
other three anchors once). -/
def dupAnchorManifest : List Char :=
  mp0 ++ (pbxBuildFileSectionEnd ++ ("\n".data ++ (pbxBuildFileSectionEnd ++
    (mp1 ++ (pbxFileRefSectionEnd ++ (mp2 ++ (runnerGroupAnchor1 ++
      (runnerGroupClose ++ (mp3 ++ mSrcT)))))))))

/-- Group trailer without the `path`/`sourceTree` lines: the fallback pattern
of `add_to_runner_group` can never match such a manifest. -/
def mp3NoTrailer : List Char :=
  "\n\t\t\x7d;\n/* End PBXGroup section */\n/* Begin PBXSourcesBuildPhase section */\n\t\t".data

/-- Manifest with all four anchors but without the Runner group trailer lines. -/
def noTrailerManifest : List Char := manifestShape mp0 mp1 mp2 mp3NoTrailer mSrcT

/-- Children-list tail on which only the fallback Runner-group pattern can
match: a hex-token child line, the closing delimiter, the group trailer, and
one trailing character. -/
def altFixtureT : List Char :=
  "\t\t\t\tABCDEF0123456789ABCDEF01 /* Foo.swift */,\n\t\t\t);\n\t\t\tpath = Runner;\n\t\t\tsourceTree = \"<group>\";Q".data

/-- First capture group of the fallback match inside `altFixtureT`. -/
def altFixtureM1 : List Char :=
  "\t\t\t\tABCDEF0123456789ABCDEF01 /* Foo.swift */,\n".data

theorem exists_drop_of_suffix {t s : List Char} (h : t <:+ s) :
    ∃ i, i ≤ s.length ∧ t = s.drop i := by
  obtain ⟨u, rfl⟩ := h
  exact ⟨u.length, by simp, by rw [List.drop_left]⟩

theorem eqList_iff {a b : List Char} : eqList a b = true ↔ a = b := by
  induction a generalizing b with
  | nil => cases b <;> simp [eqList]
  | cons x xs ih =>
    cases b with
    | nil => simp [eqList]
    | cons y ys =>
      by_cases hxy : x = y
      · subst hxy
        simp [eqList, ih]
      · simp [eqList, hxy]

theorem noHit_suffix {f : List Char → Option (List Char × List Char)} {s : List Char}
    (h : noHit f s) : ∀ t, t <:+ s → f t = none := by
  intro t ht
  obtain ⟨i, hi, rfl⟩ := exists_drop_of_suffix ht
  exact h i hi

theorem scanAux_nil (f : List Char → Option (List Char × List Char)) (fuel : Nat) :
    scanAux f fuel [] = [] := by
  cases fuel <;> rfl

theorem scanAux_none {f : List Char → Option (List Char × List Char)} {s : List Char}
    (h : ∀ t, t <:+ s → f t = none) :
    ∀ fuel, s.length ≤ fuel → scanAux f fuel s = s := by
  induction s with
  | nil => intro fuel _; exact scanAux_nil f fuel
  | cons c cs ih =>
    intro fuel hfuel
    cases fuel with
    | zero => simp at hfuel
    | succ n =>
      have h0 : f (c :: cs) = none := h _ (List.suffix_refl _)
      have : scanAux f (n + 1) (c :: cs) = c :: scanAux f n cs := by
        simp [scanAux, h0]
      rw [this, ih (fun t ht => h t (ht.trans (List.suffix_cons c cs))) n (by simpa using hfuel)]

theorem scanAux_pass {f : List Char → Option (List Char × List Char)} {u t : List Char}
    (h : noHitIn f u.length (u ++ t)) :
    ∀ fuel, u.length ≤ fuel → scanAux f fuel (u ++ t) = u ++ scanAux f (fuel - u.length) t := by
  induction u with
  | nil => intro fuel _; simp
  | cons c u' ih =>
    intro fuel hfuel
    cases fuel with
    | zero => simp at hfuel
    | succ n =>
      have h0 : f (c :: (u' ++ t)) = none := by
        have := h 0 (by simp)
        simpa using this
      have step : scanAux f (n + 1) ((c :: u') ++ t) = c :: scanAux f n (u' ++ t) := by
        simp [scanAux, h0]
      have h' : noHitIn f u'.length (u' ++ t) := by
        intro i hi
        have := h (i + 1) (by simpa using Nat.succ_lt_succ hi)
        simpa using this
      rw [step, ih h' n (by simpa using hfuel)]
      simp [Nat.succ_sub_succ]

theorem scanAux_hit {f : List Char → Option (List Char × List Char)}
    {t rep r : List Char} (hm : f t = some (rep, r)) (hne : t ≠ []) :
    ∀ fuel, 1 ≤ fuel → scanAux f fuel t = rep ++ scanAux f (fuel - 1) r := by
  intro fuel hfuel
  cases fuel with
  | zero => simp at hfuel
  | succ n =>
    cases t with
    | nil => exact absurd rfl hne
    | cons c cs => simp [scanAux, hm]

theorem lenAcc_zero (s : List Char) : lenAcc 0 s = s.length := by
  have haux : ∀ (t : List Char) (n : Nat), lenAcc n t = n + t.length := by
    intro t
    induction t with
    | nil => intro n; simp [lenAcc]
    | cons c cs ih =>
      intro n
      rw [lenAcc, ih]
      simp [List.length_cons]
      omega
  rw [haux]
  omega

theorem scanSub_id {f : List Char → Option (List Char × List Char)} {s : List Char}
    (h : noHit f s) : scanSub f s = s := by
  unfold scanSub
  rw [lenAcc_zero]
  exact scanAux_none (noHit_suffix h) s.length (Nat.le_refl _)

theorem scanSub_split {f : List Char → Option (List Char × List Char)}
    {u t rep r : List Char}
    (h1 : noHitIn f u.length (u ++ t))
    (h2 : f t = some (rep, r))
    (h3 : noHit f r)
    (h4 : r.length < t.length) :
    scanSub f (u ++ t) = u ++ (rep ++ r) := by
  have hne : t ≠ [] := by
    intro h; subst h; simp at h4
  unfold scanSub
  rw [lenAcc_zero]
  rw [scanAux_pass h1 _ (by simp [List.length_append])]
  have e1 : (u ++ t).length - u.length = t.length := by simp [List.length_append]
  rw [e1, scanAux_hit h2 hne _ (by omega),
    scanAux_none (noHit_suffix h3) _ (by omega)]

theorem scanSub_split_two {f : List Char → Option (List Char × List Char)}
    {u t v t2 rep rep2 r2 : List Char}
    (h1 : noHitIn f u.length (u ++ t))
    (h2 : f t = some (rep, v ++ t2))
    (hlen2 : (v ++ t2).length < t.length)
    (h3 : noHitIn f v.length (v ++ t2))
    (h4 : f t2 = some (rep2, r2))
    (hlen4 : r2.length < t2.length)
    (h5 : noHit f r2) :
    scanSub f (u ++ t) = u ++ (rep ++ (v ++ (rep2 ++ r2))) := by
  have hne : t ≠ [] := by
    intro h; subst h; simp at hlen2
  have hne2 : t2 ≠ [] := by
    intro h; subst h; simp at hlen4
  have hvlen : v.length + t2.length < t.length := by
    simpa [List.length_append] using hlen2
  have ht2pos : 1 ≤ t2.length := by
    cases t2 with
    | nil => exact absurd rfl hne2
    | cons a l => simp
  unfold scanSub
  rw [lenAcc_zero]
  rw [scanAux_pass h1 _ (by simp [List.length_append])]
  have e1 : (u ++ t).length - u.length = t.length := by simp [List.length_append]
  rw [e1, scanAux_hit h2 hne _ (by omega),
    scanAux_pass h3 _ (by omega),
    scanAux_hit h4 hne2 _ (by omega),
    scanAux_none (noHit_suffix h5) _ (by omega)]

theorem litRepl_hit (pat rep w : List Char) : litRepl pat rep (pat ++ w) = some (rep, w) := by
  unfold litRepl
  rw [if_pos (List.isPrefixOf_iff_prefix.mpr (List.prefix_append pat w))]
  rw [List.drop_left]

theorem litRepl_noHit_of_absent {pat rep s : List Char} (h : ¬ pat <:+: s) :
    noHit (litRepl pat rep) s := by
  intro i _
  unfold litRepl
  rw [if_neg]
  intro hp
  exact h (List.IsInfix.trans (List.isPrefixOf_iff_prefix.mp hp).isInfix
    (List.drop_suffix i s).isInfix)

theorem dropLit_sound {p s t : List Char} (h : dropLit p s = some t) : s = p ++ t := by
  unfold dropLit at h
  by_cases hp : p.isPrefixOf s
  · rw [if_pos hp] at h
    obtain ⟨w, hw⟩ := List.isPrefixOf_iff_prefix.mp hp
    subst hw
    rw [List.drop_left] at h
    cases h
    rfl
  · rw [if_neg hp] at h
    cases h

theorem breakAt_sound {c : Char} {s w r : List Char} (h : breakAt c s = some (w, r)) :
    s = w ++ r := by
  induction s generalizing w r with
  | nil => simp [breakAt] at h
  | cons x xs ih =>
    unfold breakAt at h
    by_cases hx : x = c
    · rw [if_pos hx] at h
      cases h
      rfl
    · rw [if_neg hx] at h
      cases hb : breakAt c xs with
      | none => rw [hb] at h; cases h
      | some p =>
        obtain ⟨w2, r2⟩ := p
        rw [hb] at h
        cases h
        simp [ih hb]

theorem altMatch_sound {s m1 r : List Char} (h : altMatch s = some (m1, r)) :
    s = m1 ++ (altTail ++ r) := by
  unfold altMatch at h
  cases h1 : dropLit altTabs4 s with
  | none => rw [h1] at h; cases h
  | some s1 =>
    rw [h1] at h
    simp only [] at h
    by_cases hc : (s1.take 24).length = 24 ∧ (s1.take 24).all isUpHexDigit = true
    · rw [if_pos hc] at h
      cases h2 : dropLit altOpen (s1.drop 24) with
      | none => rw [h2] at h; cases h
      | some s2 =>
        rw [h2] at h
        simp only [] at h
        cases h3 : breakAt '*' s2 with
        | none => rw [h3] at h; cases h
        | some p =>
          obtain ⟨w, s3⟩ := p
          rw [h3] at h
          simp only [] at h
          by_cases hw : 2 ≤ w.length ∧ w.getLast? = some ' '
          · rw [if_pos hw] at h
            cases h4 : dropLit altStarClose s3 with
            | none => rw [h4] at h; cases h
            | some s4 =>
              rw [h4] at h
              simp only [] at h
              cases h5 : dropLit altTail s4 with
              | none => rw [h5] at h; cases h
              | some s5 =>
                rw [h5] at h
                simp only [] at h
                cases h
                rw [dropLit_sound h1]
                conv_lhs => rw [← List.take_append_drop 24 s1]
                rw [dropLit_sound h2, breakAt_sound h3, dropLit_sound h4,
                  dropLit_sound h5]
                simp [List.append_assoc]
          · rw [if_neg hw] at h; cases h
    · rw [if_neg hc] at h; cases h

theorem srcMatch_sound {s m1 r : List Char} (h : srcMatch s = some (m1, r)) :
    s = m1 ++ (srcPhaseClose ++ r) := by
  unfold srcMatch at h
  cases h1 : dropLit srcPhaseHead s with
  | none => rw [h1] at h; cases h
  | some s1 =>
    rw [h1] at h
    simp only [] at h
    cases h2 : dropLit srcPhaseIsa (s1.dropWhile pyWhite) with
    | none => rw [h2] at h; cases h
    | some s2 =>
      rw [h2] at h
      simp only [] at h
      cases h3 : dropLit srcPhaseMask (s2.dropWhile pyWhite) with
      | none => rw [h3] at h; cases h
      | some s3 =>
        rw [h3] at h
        simp only [] at h
        cases h4 : dropLit srcPhaseFiles (s3.dropWhile pyWhite) with
        | none => rw [h4] at h; cases h
        | some s4 =>
          rw [h4] at h
          simp only [] at h
          cases h5 : breakAt ')' s4 with
          | none => rw [h5] at h; cases h
          | some p =>
            obtain ⟨w, s5⟩ := p
            rw [h5] at h
            simp only [] at h
            cases s5 with
            | nil => cases h
            | cons rp s5t =>
              cases s5t with
              | nil => cases h
              | cons sc r' =>
                simp only [] at h
                by_cases hw : rp = ')' ∧ sc = ';' ∧ 2 ≤ w.length ∧
                    w.drop (w.length - 2) = ['\t', '\t']
                · rw [if_pos hw] at h
                  cases h
                  obtain ⟨hrp, hsc, _, hw2⟩ := hw
                  subst hrp
                  subst hsc
                  have hclose : srcPhaseClose = '\t' :: '\t' :: ')' :: ';' :: [] := rfl
                  rw [dropLit_sound h1]
                  conv_lhs => rw [← List.takeWhile_append_dropWhile pyWhite s1]
                  rw [dropLit_sound h2]
                  conv_lhs => rw [← List.takeWhile_append_dropWhile pyWhite s2]
                  rw [dropLit_sound h3]
                  conv_lhs => rw [← List.takeWhile_append_dropWhile pyWhite s3]
                  rw [dropLit_sound h4, breakAt_sound h5]
                  conv_lhs => rw [← List.take_append_drop (w.length - 2) w]
                  rw [hw2, hclose]
                  simp [List.append_assoc]
                · rw [if_neg hw] at h; cases h

theorem litRepl_inv {pat rep s rp r : List Char} (h : litRepl pat rep s = some (rp, r)) :
    rp = rep ∧ s = pat ++ r := by
  unfold litRepl at h
  by_cases hp : pat.isPrefixOf s
  · rw [if_pos hp] at h
    obtain ⟨w, hw⟩ := List.isPrefixOf_iff_prefix.mp hp
    subst hw
    rw [List.drop_left] at h
    cases h
    exact ⟨rfl, rfl⟩
  · rw [if_neg hp] at h
    cases h

theorem altRepl_hit (file_ids : Ids) {s m1 r : List Char} (h : altMatch s = some (m1, r)) :
    altRepl file_ids s = some (m1 ++ (rgIns file_ids ++ altTail), r) := by
  unfold altRepl
  rw [h]
  rfl

theorem spMatch_hit (build_ids : Ids) {s m1 r : List Char} (h : srcMatch s = some (m1, r)) :
    spMatch build_ids s = some (m1 ++ (spIns build_ids ++ srcPhaseClose), r) := by
  unfold spMatch
  rw [h]
  rfl

theorem noHit_altRepl {file_ids : Ids} {s : List Char} (h : noHit altMatch s) :
    noHit (altRepl file_ids) s := by
  intro i hi
  unfold altRepl
  rw [h i hi]
  rfl

theorem noHitIn_altRepl {file_ids : Ids} {k : Nat} {s : List Char} (h : noHitIn altMatch k s) :
    noHitIn (altRepl file_ids) k s := by
  intro i hi
  unfold altRepl
  rw [h i hi]
  rfl

theorem noHit_spMatch {build_ids : Ids} {s : List Char} (h : noHit srcMatch s) :
    noHit (spMatch build_ids) s := by
  intro i hi
  unfold spMatch
  rw [h i hi]
  rfl

theorem noHitIn_spMatch {build_ids : Ids} {k : Nat} {s : List Char} (h : noHitIn srcMatch k s) :
    noHitIn (spMatch build_ids) k s := by
  intro i hi
  unfold spMatch
  rw [h i hi]
  rfl

theorem rgIns_length_pos (file_ids : Ids) : 0 < (rgIns file_ids).length := by
  have h4 : ("\t\t\t\t".data).length = 4 := rfl
  simp [rgIns, cloudKitPluginGroupChild, List.length_append, h4]

theorem scanAux_sublist {f : List Char → Option (List Char × List Char)}
    (hf : ∀ s rep r, f s = some (rep, r) → ∃ pre, s = pre ++ r ∧ pre.Sublist rep) :
    ∀ (fuel : Nat) (s : List Char), List.Sublist s (scanAux f fuel s) := by
  intro fuel
  induction fuel with
  | zero =>
    intro s
    cases s with
    | nil => exact List.Sublist.refl _
    | cons c cs => exact List.Sublist.refl _
  | succ n ih =>
    intro s
    cases s with
    | nil => exact List.Sublist.refl _
    | cons c cs =>
      cases hm : f (c :: cs) with
      | none =>
        have e : scanAux f (n + 1) (c :: cs) = c :: scanAux f n cs := by
          simp [scanAux, hm]
        rw [e]
        exact List.Sublist.cons₂ c (ih cs)
      | some p =>
        obtain ⟨rep, r⟩ := p
        have e : scanAux f (n + 1) (c :: cs) = rep ++ scanAux f n r := by
          simp [scanAux, hm]
        rw [e]
        obtain ⟨pre, hc, hpre⟩ := hf _ _ _ hm
        rw [hc]
        exact List.Sublist.append hpre (ih r)

theorem frMatch_expand (file_ids : Ids) :
    ∀ s rep r, frMatch file_ids s = some (rep, r) → ∃ pre, s = pre ++ r ∧ pre.Sublist rep := by
  intro s rep r h
  obtain ⟨hrep, hs⟩ := litRepl_inv h
  subst hrep
  exact ⟨pbxFileRefSectionEnd, hs, List.sublist_append_right _ _⟩

theorem bfMatch_expand (build_ids file_ids : Ids) :
    ∀ s rep r, bfMatch build_ids file_ids s = some (rep, r) →
      ∃ pre, s = pre ++ r ∧ pre.Sublist rep := by
  intro s rep r h
  obtain ⟨hrep, hs⟩ := litRepl_inv h
  subst hrep
  exact ⟨pbxBuildFileSectionEnd, hs, List.sublist_append_right _ _⟩

theorem rgMatch_expand (file_ids : Ids) :
    ∀ s rep r, rgMatch file_ids s = some (rep, r) → ∃ pre, s = pre ++ r ∧ pre.Sublist rep := by
  intro s rep r h
  obtain ⟨hrep, hs⟩ := litRepl_inv h
  subst hrep
  exact ⟨runnerGroupAnchor1 ++ runnerGroupClose, hs,
    List.Sublist.append_left (List.sublist_append_right _ _) _⟩

theorem altRepl_expand (file_ids : Ids) :
    ∀ s rep r, altRepl file_ids s = some (rep, r) → ∃ pre, s = pre ++ r ∧ pre.Sublist rep := by
  intro s rep r h
  unfold altRepl at h
  cases hm : altMatch s with
  | none => rw [hm] at h; cases h
  | some p =>
    obtain ⟨m1, r'⟩ := p
    rw [hm] at h
    cases h
    refine ⟨m1 ++ altTail, ?_, ?_⟩
    · rw [altMatch_sound hm]
      simp [List.append_assoc]
    · exact List.Sublist.append_left (List.sublist_append_right _ _) _

theorem spMatch_expand (build_ids : Ids) :
    ∀ s rep r, spMatch build_ids s = some (rep, r) → ∃ pre, s = pre ++ r ∧ pre.Sublist rep := by
  intro s rep r h
  unfold spMatch at h
  cases hm : srcMatch s with
  | none => rw [hm] at h; cases h
  | some p =>
    obtain ⟨m1, r'⟩ := p
    rw [hm] at h
    cases h
    refine ⟨m1 ++ srcPhaseClose, ?_, ?_⟩
    · rw [srcMatch_sound hm]
      simp [List.append_assoc]
    · exact List.Sublist.append_left (List.sublist_append_right _ _) _

theorem token_hex_length (bs : List Nat) : (token_hex bs).length = 2 * bs.length := by
  induction bs with
  | nil => rfl
  | cons b bs ih =>
    unfold token_hex
    simp [List.length_cons, ih]
    omega

theorem hexLower_isUpHex (n : Nat) : isUpHexDigit (Char.toUpper (hexLower n)) = true := by
  by_cases h : n < 16
  · revert h
    have h16 : ∀ m, m < 16 → isUpHexDigit (Char.toUpper (hexLower m)) = true := by decide
    exact h16 n
  · have e : hexLower n = '0' := by
      unfold hexLower
      apply List.getD_eq_default
      have hl : hexLowerDigits.length = 16 := rfl
      omega
    rw [e]
    decide

theorem mem_token_hex {c : Char} {bs : List Nat} (h : c ∈ token_hex bs) :
    ∃ n, c = hexLower n := by
  induction bs with
  | nil => simp [token_hex] at h
  | cons b bs ih =>
    simp only [token_hex, List.mem_cons] at h
    rcases h with h | h | h
    · exact ⟨b / 16 % 16, h⟩
    · exact ⟨b % 16, h⟩
    · exact ih h

/-- Claim C8: every call to `generate_xcode_id` returns a string of exactly 24
characters, each an uppercase hexadecimal digit.  The function is modelled as a
pure function of the 12 random bytes drawn by `secrets.token_hex(12)`: it
carries no state between calls and does not consult the manifest buffer. -/
theorem claim8_generate_xcode_id (bytes : List Nat) (h : bytes.length = 12) :
    (generate_xcode_id bytes).length = 24 ∧
    ∀ c ∈ generate_xcode_id bytes, isUpHexDigit c = true := by
  constructor
  · unfold generate_xcode_id
    rw [List.length_map, token_hex_length, h]
  · intro c hc
    unfold generate_xcode_id at hc
    rw [List.mem_map] at hc
    obtain ⟨d, hd, rfl⟩ := hc
    obtain ⟨n, rfl⟩ := mem_token_hex hd
    exact hexLower_isUpHex n

theorem claim8_witness :
    ([0, 17, 34, 51, 68, 85, 102, 119, 136, 153, 170, 187] : List Nat).length = 12 ∧
    ((generate_xcode_id [0, 17, 34, 51, 68, 85, 102, 119, 136, 153, 170, 187]).length = 24 ∧
      ∀ c ∈ generate_xcode_id [0, 17, 34, 51, 68, 85, 102, 119, 136, 153, 170, 187],
        isUpHexDigit c = true) :=
  ⟨by decide, claim8_generate_xcode_id _ (by decide)⟩

/-- Claim C9: the manifest is written exactly once, and only after the four
in-memory transformations: on a read failure the function returns before any
write and the file system is untouched; on success the single logged write
holds the fully transformed content.  The four editors are total functions
(no `re.sub` call of the script can raise), so a read failure is the only
exception path before the write. -/
theorem claim9_single_write (file_ids build_ids : Ids) (fs : PbxFS) :
    (fs.file = none → modify_pbxproj file_ids build_ids fs = (fs, none)) ∧
    (∀ c, fs.file = some c →
      modify_pbxproj file_ids build_ids fs =
        ({ file := some (modify_pbxproj_transform file_ids build_ids c),
           writes := fs.writes ++ [modify_pbxproj_transform file_ids build_ids c] },
         some true)) := by
  constructor
  · intro h
    unfold modify_pbxproj read_pbxproj
    rw [h]
  · intro c h
    unfold modify_pbxproj read_pbxproj
    rw [h]
    rfl

theorem claim9_witness :
    modify_pbxproj exFileIds exBuildIds ⟨none, []⟩ = (⟨none, []⟩, none) ∧
    modify_pbxproj exFileIds exBuildIds ⟨some minimalManifest, []⟩ =
      (⟨some (modify_pbxproj_transform exFileIds exBuildIds minimalManifest),
        [modify_pbxproj_transform exFileIds exBuildIds minimalManifest]⟩, some true) :=
  ⟨(claim9_single_write exFileIds exBuildIds ⟨none, []⟩).1 rfl, by
    have h := (claim9_single_write exFileIds exBuildIds
      ⟨some minimalManifest, []⟩).2 minimalManifest rfl
    simpa using h⟩

/-- Claim C10: every editor is purely additive — the input buffer is a
subsequence (`List.Sublist`) of the output buffer, because every replacement
embeds the matched span, so the output is never shorter and no existing text
is deleted or reordered; a buffer without matches is returned unchanged as the
degenerate case. -/
theorem claim10_editors_additive (file_ids build_ids : Ids) (content : List Char) :
    List.Sublist content (add_pbx_file_references content file_ids) ∧
    List.Sublist content (add_pbx_build_files content build_ids file_ids) ∧
    List.Sublist content (add_to_runner_group content file_ids) ∧
    List.Sublist content (add_to_sources_build_phase content build_ids) := by
  refine ⟨?_, ?_, ?_, ?_⟩
  · exact scanAux_sublist (frMatch_expand file_ids) _ _
  · exact scanAux_sublist (bfMatch_expand build_ids file_ids) _ _
  · by_cases h : scanSub (rgMatch file_ids) content = content
    · have e : add_to_runner_group content file_ids =
          scanSub (altRepl file_ids) content := by
        simp [add_to_runner_group, eqList_iff, h]
      rw [e]
      exact scanAux_sublist (altRepl_expand file_ids) _ _
    · have e : add_to_runner_group content file_ids =
          scanSub (rgMatch file_ids) content := by
        simp [add_to_runner_group, eqList_iff, h]
      rw [e]
      exact scanAux_sublist (rgMatch_expand file_ids) _ _
  · exact scanAux_sublist (spMatch_expand build_ids) _ _

/-- Claim C2: if an editor's anchor is absent from the buffer (for the group
editor: neither the primary pattern occurs nor the fallback pattern matches at
any position), the editor returns the buffer byte-for-byte unchanged; the
editors are total functions, so no exception is raised. -/
theorem claim2_absent_anchor_noop (file_ids build_ids : Ids) (content : List Char) :
    (¬ pbxFileRefSectionEnd <:+: content →
      add_pbx_file_references content file_ids = content) ∧
    (¬ pbxBuildFileSectionEnd <:+: content →
      add_pbx_build_files content build_ids file_ids = content) ∧
    (¬ (runnerGroupAnchor1 ++ runnerGroupClose) <:+: content → noHit altMatch content →
      add_to_runner_group content file_ids = content) ∧
    (noHit srcMatch content → add_to_sources_build_phase content build_ids = content) := by
  refine ⟨?_, ?_, ?_, ?_⟩
  · intro h
    exact scanSub_id (litRepl_noHit_of_absent h)
  · intro h
    exact scanSub_id (litRepl_noHit_of_absent h)
  · intro h1 h2
    have hp : scanSub (rgMatch file_ids) content = content :=
      scanSub_id (litRepl_noHit_of_absent h1)
    have ha : scanSub (altRepl file_ids) content = content :=
      scanSub_id (noHit_altRepl h2)
    simp [add_to_runner_group, eqList_iff, hp, ha]
  · intro h
    exact scanSub_id (noHit_spMatch h)

theorem claim2_witness :
    add_pbx_file_references "hello world".data exFileIds = "hello world".data ∧
    add_pbx_build_files "hello world".data exBuildIds exFileIds = "hello world".data ∧
    add_to_runner_group "hello world".data exFileIds = "hello world".data ∧
    add_to_sources_build_phase "hello world".data exBuildIds = "hello world".data :=
  ⟨(claim2_absent_anchor_noop exFileIds exBuildIds _).1 (by decide),
   (claim2_absent_anchor_noop exFileIds exBuildIds _).2.1 (by decide),
   (claim2_absent_anchor_noop exFileIds exBuildIds _).2.2.1 (by decide) (by decide),
   (claim2_absent_anchor_noop exFileIds exBuildIds _).2.2.2 (by decide)⟩

theorem add_fr_single (file_ids : Ids) (u w : List Char)
    (h1 : noHitIn (frMatch file_ids) u.length (u ++ (pbxFileRefSectionEnd ++ w)))
    (h2 : noHit (frMatch file_ids) w) :
    add_pbx_file_references (u ++ (pbxFileRefSectionEnd ++ w)) file_ids =
      u ++ (cloudKitPluginFileRef file_ids ++ (cloudKitServiceFileRef file_ids ++
        (pbxFileRefSectionEnd ++ w))) := by
  have hm : frMatch file_ids (pbxFileRefSectionEnd ++ w) =
      some (frIns file_ids ++ pbxFileRefSectionEnd, w) := litRepl_hit _ _ _
  have h4 : w.length < (pbxFileRefSectionEnd ++ w).length := by
    rw [List.length_append]
    have hpos : 0 < pbxFileRefSectionEnd.length := by decide
    omega
  have e := scanSub_split h1 hm h2 h4
  simpa [add_pbx_file_references, frIns, List.append_assoc] using e

theorem add_bf_single (build_ids file_ids : Ids) (u w : List Char)
    (h1 : noHitIn (bfMatch build_ids file_ids) u.length (u ++ (pbxBuildFileSectionEnd ++ w)))
    (h2 : noHit (bfMatch build_ids file_ids) w) :
    add_pbx_build_files (u ++ (pbxBuildFileSectionEnd ++ w)) build_ids file_ids =
      u ++ (cloudKitPluginBuildFile build_ids file_ids ++
        (cloudKitServiceBuildFile build_ids file_ids ++ (pbxBuildFileSectionEnd ++ w))) := by
  have hm : bfMatch build_ids file_ids (pbxBuildFileSectionEnd ++ w) =
      some (bfIns build_ids file_ids ++ pbxBuildFileSectionEnd, w) := litRepl_hit _ _ _
  have h4 : w.length < (pbxBuildFileSectionEnd ++ w).length := by
    rw [List.length_append]
    have hpos : 0 < pbxBuildFileSectionEnd.length := by decide
    omega
  have e := scanSub_split h1 hm h2 h4
  simpa [add_pbx_build_files, bfIns, List.append_assoc] using e

theorem add_rg_single (file_ids : Ids) (u w : List Char)
    (h1 : noHitIn (rgMatch file_ids) u.length
      (u ++ ((runnerGroupAnchor1 ++ runnerGroupClose) ++ w)))
    (h2 : noHit (rgMatch file_ids) w) :
    add_to_runner_group (u ++ ((runnerGroupAnchor1 ++ runnerGroupClose) ++ w)) file_ids =
      u ++ (runnerGroupAnchor1 ++ (cloudKitPluginGroupChild file_ids ++
        (cloudKitServiceGroupChild file_ids ++ (runnerGroupClose ++ w)))) := by
  have hm : rgMatch file_ids ((runnerGroupAnchor1 ++ runnerGroupClose) ++ w) =
      some (runnerGroupAnchor1 ++ (rgIns file_ids ++ runnerGroupClose), w) :=
    litRepl_hit _ _ _
  have h4 : w.length < ((runnerGroupAnchor1 ++ runnerGroupClose) ++ w).length := by
    rw [List.length_append]
    have hpos : 0 < (runnerGroupAnchor1 ++ runnerGroupClose).length := by decide
    omega
  have e := scanSub_split h1 hm h2 h4
  have hne : u ++ ((runnerGroupAnchor1 ++ (rgIns file_ids ++ runnerGroupClose)) ++ w) ≠
      u ++ ((runnerGroupAnchor1 ++ runnerGroupClose) ++ w) := by
    intro heq
    have hlen := congrArg List.length heq
    simp only [List.length_append] at hlen
    have hpos := rgIns_length_pos file_ids
    omega
  have estep : add_to_runner_group (u ++ ((runnerGroupAnchor1 ++ runnerGroupClose) ++ w))
      file_ids = u ++ ((runnerGroupAnchor1 ++ (rgIns file_ids ++ runnerGroupClose)) ++ w) := by
    simp only [add_to_runner_group]
    rw [e, if_neg (fun hh => hne (eqList_iff.mp hh))]
  rw [estep]
  simp [rgIns, List.append_assoc]

theorem add_sp_single (build_ids : Ids) (u t m1 r : List Char)
    (h1 : noHitIn (spMatch build_ids) u.length (u ++ t))
    (hm : srcMatch t = some (m1, r))
    (h2 : noHit (spMatch build_ids) r) :
    add_to_sources_build_phase (u ++ t) build_ids =
      u ++ (m1 ++ (cloudKitPluginSourcesEntry build_ids ++
        (cloudKitServiceSourcesEntry build_ids ++ (srcPhaseClose ++ r)))) := by
  have hrep := spMatch_hit build_ids hm
  have hsound := srcMatch_sound hm
  have h4 : r.length < t.length := by
    rw [hsound, List.length_append, List.length_append]
    have hpos : 0 < srcPhaseClose.length := by decide
    omega
  have e := scanSub_split h1 hrep h2 h4
  simpa [add_to_sources_build_phase, spIns, List.append_assoc] using e

/-- Claim C7: in every section or listing an editor modifies (under the
assumption that the anchor matches exactly once, which the target format
guarantees by construction), the new records or entries are inserted
immediately before the section-end anchor or the listing closing delimiter,
and the plugin entry always precedes the service entry, for all four
editors. -/
theorem claim7_insertion_position (file_ids build_ids : Ids) :
    (∀ u w : List Char,
      noHitIn (frMatch file_ids) u.length (u ++ (pbxFileRefSectionEnd ++ w)) →
      noHit (frMatch file_ids) w →
      add_pbx_file_references (u ++ (pbxFileRefSectionEnd ++ w)) file_ids =
        u ++ (cloudKitPluginFileRef file_ids ++ (cloudKitServiceFileRef file_ids ++
          (pbxFileRefSectionEnd ++ w)))) ∧
    (∀ u w : List Char,
      noHitIn (bfMatch build_ids file_ids) u.length (u ++ (pbxBuildFileSectionEnd ++ w)) →
      noHit (bfMatch build_ids file_ids) w →
      add_pbx_build_files (u ++ (pbxBuildFileSectionEnd ++ w)) build_ids file_ids =
        u ++ (cloudKitPluginBuildFile build_ids file_ids ++
          (cloudKitServiceBuildFile build_ids file_ids ++ (pbxBuildFileSectionEnd ++ w)))) ∧
    (∀ u w : List Char,
      noHitIn (rgMatch file_ids) u.length
        (u ++ ((runnerGroupAnchor1 ++ runnerGroupClose) ++ w)) →
      noHit (rgMatch file_ids) w →
      add_to_runner_group (u ++ ((runnerGroupAnchor1 ++ runnerGroupClose) ++ w)) file_ids =
        u ++ (runnerGroupAnchor1 ++ (cloudKitPluginGroupChild file_ids ++
          (cloudKitServiceGroupChild file_ids ++ (runnerGroupClose ++ w))))) ∧
    (∀ u t m1 r : List Char,
      noHitIn (spMatch build_ids) u.length (u ++ t) →
      srcMatch t = some (m1, r) →
      noHit (spMatch build_ids) r →
      add_to_sources_build_phase (u ++ t) build_ids =
        u ++ (m1 ++ (cloudKitPluginSourcesEntry build_ids ++
          (cloudKitServiceSourcesEntry build_ids ++ (srcPhaseClose ++ r))))) :=
  ⟨fun u w h1 h2 => add_fr_single file_ids u w h1 h2,
   fun u w h1 h2 => add_bf_single build_ids file_ids u w h1 h2,
   fun u w h1 h2 => add_rg_single file_ids u w h1 h2,
   fun u t m1 r h1 hm h2 => add_sp_single build_ids u t m1 r h1 hm h2⟩

theorem claim7_witness :
    add_pbx_file_references ("A\n".data ++ (pbxFileRefSectionEnd ++ "\nB".data)) exFileIds =
      "A\n".data ++ (cloudKitPluginFileRef exFileIds ++ (cloudKitServiceFileRef exFileIds ++
        (pbxFileRefSectionEnd ++ "\nB".data))) ∧
    add_pbx_build_files ("A\n".data ++ (pbxBuildFileSectionEnd ++ "\nB".data))
        exBuildIds exFileIds =
      "A\n".data ++ (cloudKitPluginBuildFile exBuildIds exFileIds ++
        (cloudKitServiceBuildFile exBuildIds exFileIds ++
          (pbxBuildFileSectionEnd ++ "\nB".data))) ∧
    add_to_runner_group ("X".data ++ ((runnerGroupAnchor1 ++ runnerGroupClose) ++ "\nY".data))
        exFileIds =
      "X".data ++ (runnerGroupAnchor1 ++ (cloudKitPluginGroupChild exFileIds ++
        (cloudKitServiceGroupChild exFileIds ++ (runnerGroupClose ++ "\nY".data)))) ∧
    add_to_sources_build_phase ("Z".data ++ mSrcT) exBuildIds =
      "Z".data ++ (mm1 ++ (cloudKitPluginSourcesEntry exBuildIds ++
        (cloudKitServiceSourcesEntry exBuildIds ++ (srcPhaseClose ++ mr)))) :=
  ⟨(claim7_insertion_position exFileIds exBuildIds).1 _ _ (by decide) (by decide),
   (claim7_insertion_position exFileIds exBuildIds).2.1 _ _ (by decide) (by decide),
   (claim7_insertion_position exFileIds exBuildIds).2.2.1 _ _ (by decide) (by decide),
   (claim7_insertion_position exFileIds exBuildIds).2.2.2 _ mSrcT mm1 mr
     (by decide) (by decide) (by decide)⟩

/-- Claim C6: when the primary Runner-group substitution changes nothing, the
fallback pattern is attempted; if it matches (a 24-character uppercase-hex
child entry directly before the closing delimiter followed by the group's
`path`/`sourceTree` trailer), the same two children that the primary pattern
would insert — plugin first, then service — are inserted after that last
child line and before the closing delimiter (which heads `altTail`); if the
fallback matches nowhere either, the buffer is returned unchanged. -/
theorem claim6_fallback_group (file_ids : Ids) :
    (∀ u t m1 r : List Char,
      scanSub (rgMatch file_ids) (u ++ t) = u ++ t →
      noHitIn altMatch u.length (u ++ t) →
      altMatch t = some (m1, r) →
      noHit altMatch r →
      add_to_runner_group (u ++ t) file_ids =
        u ++ (m1 ++ (cloudKitPluginGroupChild file_ids ++
          (cloudKitServiceGroupChild file_ids ++ (altTail ++ r))))) ∧
    (∀ c : List Char,
      scanSub (rgMatch file_ids) c = c → noHit altMatch c →
      add_to_runner_group c file_ids = c) := by
  constructor
  · intro u t m1 r hp h1 hm h2
    have hrep := altRepl_hit file_ids hm
    have hsound := altMatch_sound hm
    have h4 : r.length < t.length := by
      rw [hsound, List.length_append, List.length_append]
      have hpos : 0 < altTail.length := by decide
      omega
    have e := scanSub_split (noHitIn_altRepl h1) hrep (noHit_altRepl h2) h4
    have estep : add_to_runner_group (u ++ t) file_ids =
        scanSub (altRepl file_ids) (u ++ t) := by
      simp only [add_to_runner_group]
      rw [hp, if_pos (eqList_iff.mpr rfl)]
    rw [estep, e]
    simp [rgIns, List.append_assoc]
  · intro c hp h2
    have estep : add_to_runner_group c file_ids = scanSub (altRepl file_ids) c := by
      simp only [add_to_runner_group]
      rw [hp, if_pos (eqList_iff.mpr rfl)]
    rw [estep]
    exact scanSub_id (noHit_altRepl h2)

theorem claim6_witness :
    add_to_runner_group ("G\n".data ++ altFixtureT) exFileIds =
      "G\n".data ++ (altFixtureM1 ++ (cloudKitPluginGroupChild exFileIds ++
        (cloudKitServiceGroupChild exFileIds ++
          (altTail ++ "Q".data)))) ∧
    add_to_runner_group "no anchors here".data exFileIds = "no anchors here".data :=
  ⟨(claim6_fallback_group exFileIds).1 "G\n".data altFixtureT altFixtureM1 "Q".data
     (by decide) (by decide) (by decide) (by decide),
   (claim6_fallback_group exFileIds).2 _ (by decide) (by decide)⟩

/-- Claim C3 counterexample: in a buffer where the file-reference anchor
occurs twice, `re.sub` (default `count = 0`) performs the insertion at BOTH
occurrences — the output carries the two entries in front of each anchor and
contains the plugin entry twice — refuting the claim that only the first
occurrence is affected and later occurrences are left without an insertion. -/
theorem claim3_counterexample :
    add_pbx_file_references
        (pbxFileRefSectionEnd ++ ("\n".data ++ pbxFileRefSectionEnd)) exFileIds =
      frIns exFileIds ++ (pbxFileRefSectionEnd ++ ("\n".data ++
        (frIns exFileIds ++ pbxFileRefSectionEnd))) ∧
    countOccs (cloudKitPluginFileRef exFileIds)
      (add_pbx_file_references
        (pbxFileRefSectionEnd ++ ("\n".data ++ pbxFileRefSectionEnd)) exFileIds) = 2 :=
  ⟨by decide, by decide⟩

/-- Claim C3 (amended): the regex substitution of the record-section editors
affects EVERY non-overlapping leftmost occurrence of the anchor, not only the
first: in a buffer with two occurrences, each receives the two inserted
entries directly in front of it. -/
theorem claim3_every_occurrence (file_ids build_ids : Ids) :
    (∀ u v w : List Char,
      noHitIn (frMatch file_ids) u.length
        (u ++ (pbxFileRefSectionEnd ++ (v ++ (pbxFileRefSectionEnd ++ w)))) →
      noHitIn (frMatch file_ids) v.length (v ++ (pbxFileRefSectionEnd ++ w)) →
      noHit (frMatch file_ids) w →
      add_pbx_file_references
          (u ++ (pbxFileRefSectionEnd ++ (v ++ (pbxFileRefSectionEnd ++ w)))) file_ids =
        u ++ (cloudKitPluginFileRef file_ids ++ (cloudKitServiceFileRef file_ids ++
          (pbxFileRefSectionEnd ++ (v ++ (cloudKitPluginFileRef file_ids ++
            (cloudKitServiceFileRef file_ids ++ (pbxFileRefSectionEnd ++ w)))))))) ∧
    (∀ u v w : List Char,
      noHitIn (bfMatch build_ids file_ids) u.length
        (u ++ (pbxBuildFileSectionEnd ++ (v ++ (pbxBuildFileSectionEnd ++ w)))) →
      noHitIn (bfMatch build_ids file_ids) v.length (v ++ (pbxBuildFileSectionEnd ++ w)) →
      noHit (bfMatch build_ids file_ids) w →
      add_pbx_build_files
          (u ++ (pbxBuildFileSectionEnd ++ (v ++ (pbxBuildFileSectionEnd ++ w))))
          build_ids file_ids =
        u ++ (cloudKitPluginBuildFile build_ids file_ids ++
          (cloudKitServiceBuildFile build_ids file_ids ++
          (pbxBuildFileSectionEnd ++ (v ++ (cloudKitPluginBuildFile build_ids file_ids ++
            (cloudKitServiceBuildFile build_ids file_ids ++
              (pbxBuildFileSectionEnd ++ w)))))))) := by
  constructor
  · intro u v w h1 h3 h5
    have hpos : 0 < pbxFileRefSectionEnd.length := by decide
    have h2 : frMatch file_ids
        (pbxFileRefSectionEnd ++ (v ++ (pbxFileRefSectionEnd ++ w))) =
        some (frIns file_ids ++ pbxFileRefSectionEnd, v ++ (pbxFileRefSectionEnd ++ w)) :=
      litRepl_hit _ _ _
    have h4 : frMatch file_ids (pbxFileRefSectionEnd ++ w) =
        some (frIns file_ids ++ pbxFileRefSectionEnd, w) := litRepl_hit _ _ _
    have hlen2 : (v ++ (pbxFileRefSectionEnd ++ w)).length <
        (pbxFileRefSectionEnd ++ (v ++ (pbxFileRefSectionEnd ++ w))).length := by
      simp only [List.length_append]
      omega
    have hlen4 : w.length < (pbxFileRefSectionEnd ++ w).length := by
      rw [List.length_append]
      omega
    have e := scanSub_split_two h1 h2 hlen2 h3 h4 hlen4 h5
    simpa [add_pbx_file_references, frIns, List.append_assoc] using e
  · intro u v w h1 h3 h5
    have hpos : 0 < pbxBuildFileSectionEnd.length := by decide
    have h2 : bfMatch build_ids file_ids
        (pbxBuildFileSectionEnd ++ (v ++ (pbxBuildFileSectionEnd ++ w))) =
        some (bfIns build_ids file_ids ++ pbxBuildFileSectionEnd,
          v ++ (pbxBuildFileSectionEnd ++ w)) := litRepl_hit _ _ _
    have h4 : bfMatch build_ids file_ids (pbxBuildFileSectionEnd ++ w) =
        some (bfIns build_ids file_ids ++ pbxBuildFileSectionEnd, w) := litRepl_hit _ _ _
    have hlen2 : (v ++ (pbxBuildFileSectionEnd ++ w)).length <
        (pbxBuildFileSectionEnd ++ (v ++ (pbxBuildFileSectionEnd ++ w))).length := by
      simp only [List.length_append]
      omega
    have hlen4 : w.length < (pbxBuildFileSectionEnd ++ w).length := by
      rw [List.length_append]
      omega
    have e := scanSub_split_two h1 h2 hlen2 h3 h4 hlen4 h5
    simpa [add_pbx_build_files, bfIns, List.append_assoc] using e

theorem claim3_witness :
    add_pbx_file_references
        ("u".data ++ (pbxFileRefSectionEnd ++ ("\nv\n".data ++
          (pbxFileRefSectionEnd ++ "\nw".data)))) exFileIds =
      "u".data ++ (cloudKitPluginFileRef exFileIds ++ (cloudKitServiceFileRef exFileIds ++
        (pbxFileRefSectionEnd ++ ("\nv\n".data ++ (cloudKitPluginFileRef exFileIds ++
          (cloudKitServiceFileRef exFileIds ++ (pbxFileRefSectionEnd ++ "\nw".data))))))) ∧
    add_pbx_build_files
        ("u".data ++ (pbxBuildFileSectionEnd ++ ("\nv\n".data ++
          (pbxBuildFileSectionEnd ++ "\nw".data)))) exBuildIds exFileIds =
      "u".data ++ (cloudKitPluginBuildFile exBuildIds exFileIds ++
        (cloudKitServiceBuildFile exBuildIds exFileIds ++
        (pbxBuildFileSectionEnd ++ ("\nv\n".data ++
          (cloudKitPluginBuildFile exBuildIds exFileIds ++
            (cloudKitServiceBuildFile exBuildIds exFileIds ++
              (pbxBuildFileSectionEnd ++ "\nw".data))))))) :=
  ⟨(claim3_every_occurrence exFileIds exBuildIds).1 _ _ _
     (by decide) (by decide) (by decide),
   (claim3_every_occurrence exFileIds exBuildIds).2 _ _ _
     (by decide) (by decide) (by decide)⟩

theorem buildFileRef_infix_plugin (build_ids file_ids : Ids) :
    ("fileRef = ".data ++ file_ids.plugin) <:+: cloudKitPluginBuildFile build_ids file_ids := by
  refine ⟨"\t\t".data ++ build_ids.plugin ++
    " /* CloudKitPlugin.swift in Sources */ = \x7bisa = PBXBuildFile; ".data,
    " /* CloudKitPlugin.swift */; \x7d;\n".data, ?_⟩
  have hsplit :
      (" /* CloudKitPlugin.swift in Sources */ = \x7bisa = PBXBuildFile; fileRef = ").data =
      (" /* CloudKitPlugin.swift in Sources */ = \x7bisa = PBXBuildFile; ").data ++
        ("fileRef = ").data := by decide
  simp [cloudKitPluginBuildFile, hsplit, List.append_assoc]

theorem buildFileRef_infix_service (build_ids file_ids : Ids) :
    ("fileRef = ".data ++ file_ids.service) <:+:
      cloudKitServiceBuildFile build_ids file_ids := by
  refine ⟨"\t\t".data ++ build_ids.service ++
    " /* CloudKitService.swift in Sources */ = \x7bisa = PBXBuildFile; ".data,
    " /* CloudKitService.swift */; \x7d;\n".data, ?_⟩
  have hsplit :
      (" /* CloudKitService.swift in Sources */ = \x7bisa = PBXBuildFile; fileRef = ").data =
      (" /* CloudKitService.swift in Sources */ = \x7bisa = PBXBuildFile; ").data ++
        ("fileRef = ").data := by decide
  simp [cloudKitServiceBuildFile, hsplit, List.append_assoc]

theorem refIdentifier_infix_plugin (file_ids : Ids) :
    (file_ids.plugin ++ " /* CloudKitPlugin.swift */ = \x7bisa = PBXFileReference".data) <:+:
      cloudKitPluginFileRef file_ids := by
  refine ⟨"\t\t".data,
    "; lastKnownFileType = sourcecode.swift; path = CloudKitPlugin.swift; sourceTree = \"<group>\"; \x7d;\n".data, ?_⟩
  have hsplit :
      (" /* CloudKitPlugin.swift */ = \x7bisa = PBXFileReference; lastKnownFileType = sourcecode.swift; path = CloudKitPlugin.swift; sourceTree = \"<group>\"; \x7d;\n").data =
      (" /* CloudKitPlugin.swift */ = \x7bisa = PBXFileReference").data ++
        ("; lastKnownFileType = sourcecode.swift; path = CloudKitPlugin.swift; sourceTree = \"<group>\"; \x7d;\n").data := by decide
  simp [cloudKitPluginFileRef, hsplit, List.append_assoc]

theorem refIdentifier_infix_service (file_ids : Ids) :
    (file_ids.service ++ " /* CloudKitService.swift */ = \x7bisa = PBXFileReference".data) <:+:
      cloudKitServiceFileRef file_ids := by
  refine ⟨"\t\t".data,
    "; lastKnownFileType = sourcecode.swift; path = CloudKitService.swift; sourceTree = \"<group>\"; \x7d;\n".data, ?_⟩
  have hsplit :
      (" /* CloudKitService.swift */ = \x7bisa = PBXFileReference; lastKnownFileType = sourcecode.swift; path = CloudKitService.swift; sourceTree = \"<group>\"; \x7d;\n").data =
      (" /* CloudKitService.swift */ = \x7bisa = PBXFileReference").data ++
        ("; lastKnownFileType = sourcecode.swift; path = CloudKitService.swift; sourceTree = \"<group>\"; \x7d;\n").data := by decide
  simp [cloudKitServiceFileRef, hsplit, List.append_assoc]

/-- Claim C1 (amended): for every manifest with the four anchors in standard
order in which each editor's pattern matches EXACTLY ONCE (the hypotheses rule
out any further match before or after the matched position — the restriction
forced by `re.sub` replacing every occurrence, see the counterexample), one
pipeline application produces the manifest with exactly two new BuildBinding
records before the build-file anchor, exactly two new Reference records before
the file-reference anchor, two group children and two phase entries before the
respective closing delimiters (`finalShape`), and each BuildBinding record's
`fileRef` field carries the identifier heading the corresponding Reference
record. -/
theorem claim1_pipeline_two_records (file_ids build_ids : Ids)
    (p0 p1 p2 p3 t m1 r : List Char)
    (hsm : srcMatch t = some (m1, r))
    (h1a : noHitIn (bfMatch build_ids file_ids) p0.length
      (p0 ++ (pbxBuildFileSectionEnd ++ (p1 ++ (pbxFileRefSectionEnd ++
        (p2 ++ (runnerGroupAnchor1 ++ (runnerGroupClose ++ (p3 ++ t)))))))))
    (h1b : noHit (bfMatch build_ids file_ids)
      (p1 ++ (pbxFileRefSectionEnd ++ (p2 ++ (runnerGroupAnchor1 ++
        (runnerGroupClose ++ (p3 ++ t)))))))
    (h2a : noHitIn (frMatch file_ids)
      (p0 ++ (bfIns build_ids file_ids ++ (pbxBuildFileSectionEnd ++ p1))).length
      ((p0 ++ (bfIns build_ids file_ids ++ (pbxBuildFileSectionEnd ++ p1))) ++
        (pbxFileRefSectionEnd ++ (p2 ++ (runnerGroupAnchor1 ++
          (runnerGroupClose ++ (p3 ++ t)))))))
    (h2b : noHit (frMatch file_ids)
      (p2 ++ (runnerGroupAnchor1 ++ (runnerGroupClose ++ (p3 ++ t)))))
    (h3a : noHitIn (rgMatch file_ids)
      (p0 ++ (bfIns build_ids file_ids ++ (pbxBuildFileSectionEnd ++ (p1 ++
        (frIns file_ids ++ (pbxFileRefSectionEnd ++ p2)))))).length
      ((p0 ++ (bfIns build_ids file_ids ++ (pbxBuildFileSectionEnd ++ (p1 ++
        (frIns file_ids ++ (pbxFileRefSectionEnd ++ p2)))))) ++
        ((runnerGroupAnchor1 ++ runnerGroupClose) ++ (p3 ++ t))))
    (h3b : noHit (rgMatch file_ids) (p3 ++ t))
    (h4a : noHitIn (spMatch build_ids)
      (p0 ++ (bfIns build_ids file_ids ++ (pbxBuildFileSectionEnd ++ (p1 ++
        (frIns file_ids ++ (pbxFileRefSectionEnd ++ (p2 ++ (runnerGroupAnchor1 ++
          (rgIns file_ids ++ (runnerGroupClose ++ p3)))))))))).length
      ((p0 ++ (bfIns build_ids file_ids ++ (pbxBuildFileSectionEnd ++ (p1 ++
        (frIns file_ids ++ (pbxFileRefSectionEnd ++ (p2 ++ (runnerGroupAnchor1 ++
          (rgIns file_ids ++ (runnerGroupClose ++ p3)))))))))) ++ t))
    (h4b : noHit (spMatch build_ids) r) :
    modify_pbxproj_transform file_ids build_ids (manifestShape p0 p1 p2 p3 t) =
      finalShape build_ids file_ids p0 p1 p2 p3 m1 r ∧
    ("fileRef = ".data ++ file_ids.plugin) <:+: cloudKitPluginBuildFile build_ids file_ids ∧
    (file_ids.plugin ++ " /* CloudKitPlugin.swift */ = \x7bisa = PBXFileReference".data) <:+:
      cloudKitPluginFileRef file_ids ∧
    ("fileRef = ".data ++ file_ids.service) <:+:
      cloudKitServiceBuildFile build_ids file_ids ∧
    (file_ids.service ++ " /* CloudKitService.swift */ = \x7bisa = PBXFileReference".data) <:+:
      cloudKitServiceFileRef file_ids := by
  refine ⟨?_, buildFileRef_infix_plugin build_ids file_ids,
    refIdentifier_infix_plugin file_ids,
    buildFileRef_infix_service build_ids file_ids,
    refIdentifier_infix_service file_ids⟩
  have e1 : add_pbx_build_files (manifestShape p0 p1 p2 p3 t) build_ids file_ids =
      stage1Shape build_ids file_ids p0 p1 p2 p3 t := by
    have e := add_bf_single build_ids file_ids p0
      (p1 ++ (pbxFileRefSectionEnd ++ (p2 ++ (runnerGroupAnchor1 ++
        (runnerGroupClose ++ (p3 ++ t)))))) h1a h1b
    exact e.trans (by simp [stage1Shape, bfIns, List.append_assoc])
  have e2 : add_pbx_file_references (stage1Shape build_ids file_ids p0 p1 p2 p3 t)
      file_ids = stage2Shape build_ids file_ids p0 p1 p2 p3 t := by
    have eShape : stage1Shape build_ids file_ids p0 p1 p2 p3 t =
        (p0 ++ (bfIns build_ids file_ids ++ (pbxBuildFileSectionEnd ++ p1))) ++
          (pbxFileRefSectionEnd ++ (p2 ++ (runnerGroupAnchor1 ++
            (runnerGroupClose ++ (p3 ++ t))))) := by
      simp [stage1Shape, List.append_assoc]
    rw [eShape]
    exact (add_fr_single file_ids _ _ h2a h2b).trans
      (by simp [stage2Shape, frIns, List.append_assoc])
  have e3 : add_to_runner_group (stage2Shape build_ids file_ids p0 p1 p2 p3 t) file_ids =
      stage3Shape build_ids file_ids p0 p1 p2 p3 t := by
    have eShape : stage2Shape build_ids file_ids p0 p1 p2 p3 t =
        (p0 ++ (bfIns build_ids file_ids ++ (pbxBuildFileSectionEnd ++ (p1 ++
          (frIns file_ids ++ (pbxFileRefSectionEnd ++ p2)))))) ++
          ((runnerGroupAnchor1 ++ runnerGroupClose) ++ (p3 ++ t)) := by
      simp [stage2Shape, List.append_assoc]
    rw [eShape]
    exact (add_rg_single file_ids _ _ h3a h3b).trans
      (by simp [stage3Shape, rgIns, List.append_assoc])
  have e4 : add_to_sources_build_phase (stage3Shape build_ids file_ids p0 p1 p2 p3 t)
      build_ids = finalShape build_ids file_ids p0 p1 p2 p3 m1 r := by
    have eShape : stage3Shape build_ids file_ids p0 p1 p2 p3 t =
        (p0 ++ (bfIns build_ids file_ids ++ (pbxBuildFileSectionEnd ++ (p1 ++
          (frIns file_ids ++ (pbxFileRefSectionEnd ++ (p2 ++ (runnerGroupAnchor1 ++
            (rgIns file_ids ++ (runnerGroupClose ++ p3)))))))))) ++ t := by
      simp [stage3Shape, List.append_assoc]
    rw [eShape]
    exact (add_sp_single build_ids _ t m1 r h4a hsm h4b).trans
      (by simp [finalShape, spIns, List.append_assoc])
  unfold modify_pbxproj_transform
  rw [e1, e2, e3, e4]


theorem noHitB_suffix {f : List Char → Option (List Char × List Char)} :
    ∀ {s : List Char}, noHitB f s = true → ∀ t, t <:+ s → f t = none := by
  intro s
  induction s with
  | nil =>
    intro h t ht
    rw [List.suffix_nil.mp ht]
    simpa [noHitB] using h
  | cons c cs ih =>
    intro h t ht
    simp only [noHitB, Bool.and_eq_true, decide_eq_true_eq] at h
    rcases List.suffix_cons_iff.mp ht with h1 | h1
    · rw [h1]; exact h.1
    · exact ih h.2 t h1

theorem noHit_of_B {f : List Char → Option (List Char × List Char)} {s : List Char}
    (h : noHitB f s = true) : noHit f s := by
  intro i _
  exact noHitB_suffix h _ (List.drop_suffix i s)

theorem noHitIn_of_B {f : List Char → Option (List Char × List Char)} {k : Nat}
    {s : List Char} (hlen : k ≤ s.length) (h : noHitUptoB f k s = true) : noHitIn f k s := by
  induction k generalizing s with
  | zero => intro i hi; omega
  | succ n ih =>
    intro i hi
    cases s with
    | nil => simp at hlen
    | cons c cs =>
      simp only [noHitUptoB, Bool.and_eq_true, decide_eq_true_eq] at h
      cases i with
      | zero => simpa using h.1
      | succ j =>
        have hstep := ih (s := cs) (by simpa using hlen) h.2 j (by omega)
        simpa using hstep

theorem claim1_witness :
    modify_pbxproj_transform exFileIds exBuildIds
        (manifestShape mp0 mp1 mp2 mp3 mSrcT) =
      finalShape exBuildIds exFileIds mp0 mp1 mp2 mp3 mm1 mr ∧
    ("fileRef = ".data ++ exFileIds.plugin) <:+: cloudKitPluginBuildFile exBuildIds exFileIds ∧
    (exFileIds.plugin ++ " /* CloudKitPlugin.swift */ = \x7bisa = PBXFileReference".data) <:+:
      cloudKitPluginFileRef exFileIds ∧
    ("fileRef = ".data ++ exFileIds.service) <:+:
      cloudKitServiceBuildFile exBuildIds exFileIds ∧
    (exFileIds.service ++ " /* CloudKitService.swift */ = \x7bisa = PBXFileReference".data) <:+:
      cloudKitServiceFileRef exFileIds :=
  claim1_pipeline_two_records exFileIds exBuildIds mp0 mp1 mp2 mp3 mSrcT mm1 mr
    (by decide)
    (noHitIn_of_B (by decide) (by decide))
    (noHit_of_B (by decide))
    (noHitIn_of_B (by decide) (by decide))
    (noHit_of_B (by decide))
    (noHitIn_of_B (by decide) (by decide))
    (noHit_of_B (by decide))
    (noHitIn_of_B (by decide) (by decide))
    (noHit_of_B (by decide))

/-- Claim C1 counterexample: the claim quantifies over every manifest
containing the four expected anchors; in a manifest where the build-file
section end anchor occurs twice, one pipeline application inserts the two
BuildBinding records at BOTH occurrences, yielding four new records, not
exactly two (the input contains none). -/
theorem claim1_counterexample :
    countOccs "isa = PBXBuildFile;".data
      (modify_pbxproj_transform exFileIds exBuildIds dupAnchorManifest) = 4 ∧
    countOccs "isa = PBXBuildFile;".data dupAnchorManifest = 0 :=
  ⟨by decide, by decide⟩

/-- Claim C4 counterexample: on a minimal synthetic manifest with exactly the
four anchors and no CloudKit line, grep for "CloudKitPlugin.swift" over the
pipeline output matches FOUR lines, not three: the claim's count of 3 (one
Reference, one BuildBinding, one group entry) omits the phase-listing entry,
whose label "CloudKitPlugin.swift in Sources" also contains the substring. -/
theorem claim4_counterexample :
    grepCount "CloudKitPlugin.swift".data
        (modify_pbxproj_transform exFileIds exBuildIds minimalManifest) = 4 ∧
    grepCount "CloudKitPlugin.swift".data
        (modify_pbxproj_transform exFileIds exBuildIds minimalManifest) ≠ 3 := by
  have h : grepCount "CloudKitPlugin.swift".data
      (modify_pbxproj_transform exFileIds exBuildIds minimalManifest) = 4 := by decide
  exact ⟨h, by rw [h]; decide⟩

/-- Claim C4 (amended): on the minimal synthetic manifest (exactly the four
required anchors, no line containing CloudKit), one pipeline run produces a
buffer in which exactly 4 lines contain "CloudKitPlugin.swift" (Reference
record, BuildBinding record, group-listing entry, phase-listing entry) and
exactly 2 lines contain "CloudKitPlugin.swift in Sources" (BuildBinding record
and phase-listing entry); likewise 4 and 2 for the service file. -/
theorem claim4_grep_counts :
    grepCount "CloudKitPlugin.swift".data
        (modify_pbxproj_transform exFileIds exBuildIds minimalManifest) = 4 ∧
    grepCount "CloudKitPlugin.swift in Sources".data
        (modify_pbxproj_transform exFileIds exBuildIds minimalManifest) = 2 ∧
    grepCount "CloudKitService.swift".data
        (modify_pbxproj_transform exFileIds exBuildIds minimalManifest) = 4 ∧
    grepCount "CloudKitService.swift in Sources".data
        (modify_pbxproj_transform exFileIds exBuildIds minimalManifest) = 2 :=
  ⟨by decide, by decide, by decide, by decide⟩

/-- Claim C5 counterexample: the claim quantifies over every manifest with the
four expected anchors.  On a manifest whose Runner group lacks the
`path`/`sourceTree` trailer lines, the second pipeline application cannot
insert into the group listing at all: the primary pattern no longer matches
(the first run's children now sit between the sentinel line and the closing
delimiter) and the fallback pattern requires the trailer — so after two runs
the group listing holds one plugin child and one service child (two entries),
not the four entries the claim asserts; the record sections meanwhile do grow
to four Reference records. -/
theorem claim5_counterexample :
    countOccs " /* CloudKitPlugin.swift */,\n".data
        (modify_pbxproj_transform exFileIds2 exBuildIds2
          (modify_pbxproj_transform exFileIds exBuildIds noTrailerManifest)) = 1 ∧
    countOccs " /* CloudKitService.swift */,\n".data
        (modify_pbxproj_transform exFileIds2 exBuildIds2
          (modify_pbxproj_transform exFileIds exBuildIds noTrailerManifest)) = 1 ∧
    countOccs "isa = PBXFileReference;".data
        (modify_pbxproj_transform exFileIds2 exBuildIds2
          (modify_pbxproj_transform exFileIds exBuildIds noTrailerManifest)) = 4 :=
  ⟨by decide, by decide, by decide⟩

/-- Claim C5 (amended): the pipeline is not idempotent.  On the minimal
synthetic manifest, whose Runner group carries the `path`/`sourceTree` trailer
required by the fallback pattern, applying the pipeline a second time (with
fresh identifiers) appends a second pair everywhere: four Reference records,
four BuildBinding records, four group-listing entries (two per file name) and
four phase-listing entries (two per file name) in total — no duplicate
detection occurs.  On the second run the group insertion goes through the
fallback pattern, since the first run's children broke the primary pattern's
sentinel-before-closing adjacency. -/
theorem claim5_not_idempotent :
    countOccs "isa = PBXFileReference;".data
        (modify_pbxproj_transform exFileIds2 exBuildIds2
          (modify_pbxproj_transform exFileIds exBuildIds minimalManifest)) = 4 ∧
    countOccs "isa = PBXBuildFile;".data
        (modify_pbxproj_transform exFileIds2 exBuildIds2
          (modify_pbxproj_transform exFileIds exBuildIds minimalManifest)) = 4 ∧
    countOccs " /* CloudKitPlugin.swift */,\n".data
        (modify_pbxproj_transform exFileIds2 exBuildIds2
          (modify_pbxproj_transform exFileIds exBuildIds minimalManifest)) = 2 ∧
    countOccs " /* CloudKitService.swift */,\n".data
        (modify_pbxproj_transform exFileIds2 exBuildIds2
          (modify_pbxproj_transform exFileIds exBuildIds minimalManifest)) = 2 ∧
    countOccs " /* CloudKitPlugin.swift in Sources */,\n".data
        (modify_pbxproj_transform exFileIds2 exBuildIds2
          (modify_pbxproj_transform exFileIds exBuildIds minimalManifest)) = 2 ∧
    countOccs " /* CloudKitService.swift in Sources */,\n".data
        (modify_pbxproj_transform exFileIds2 exBuildIds2
          (modify_pbxproj_transform exFileIds exBuildIds minimalManifest)) = 2 :=
  ⟨by decide, by decide, by decide, by decide, by decide, by decide⟩
